import Mathlib

/-!
Verification development for the `@bnk/router` request dispatcher.

The TypeScript source is embedded shallowly:

* pure helpers (`matchRoute`, `validateRequest`) become Lean functions over
  explicit request/response values;
* the stateful dispatch pipeline (`Router.handle`) becomes a pure interpreter
  that, besides the response, returns the list of observable execution events
  (middleware invocations, route matching, auth verification, validation,
  handler and plugin-hook invocations), so that ordering and short-circuit
  properties can be stated;
* caller-supplied collaborators (middleware bodies, route handlers, validator
  objects, auth verify steps, plugin hooks) are arbitrary Lean functions, and
  exceptional control flow is `Except`;
* JavaScript objects built by repeated key assignment
  (`Object.fromEntries`, the params object of `matchRoute`) are association
  lists with assign-or-overwrite semantics;
* header names are modelled already lower-cased, mirroring the
  case-insensitive `Headers` of the fetch API;
* the body stream of a request is explicit state: reading it through
  `Request.jsonConsume` / `Request.textConsume` marks it used, and
  `Request.clone` yields an independent copy, mirroring `req.clone()`.
-/

namespace BnkRouter

/-! ## Definitions -/

/-- Spec2Proof string helper: the characters of `s` before the first `?`,
mirroring the JavaScript `s.split('?')[0]`. -/
def stripQuery (s : String) : String :=
  String.mk (s.data.takeWhile (fun c => c ≠ '?'))

/-- Spec2Proof string helper: remove every trailing `/`, mirroring the
JavaScript `s.replace(/\/+$/, '')`. -/
def dropTrailingSlashes (s : String) : String :=
  String.mk ((s.data.reverse.dropWhile (fun c => c = '/')).reverse)

/-- Spec2Proof string helper: split on a character, mirroring the JavaScript
`s.split(c)` (an empty string yields `[""]`). -/
def splitSegsAux (c : Char) : List Char → List Char → List String
  | [], acc => [String.mk acc.reverse]
  | x :: xs, acc =>
    if x = c then String.mk acc.reverse :: splitSegsAux c xs []
    else splitSegsAux c xs (x :: acc)

/-- Split a string on a character (JavaScript `String.prototype.split`). -/
def splitOnCharStr (c : Char) (s : String) : List String :=
  splitSegsAux c s.data []

/-- Boolean string-prefix test (JavaScript `s.startsWith(p)`). -/
def strStartsWith (s p : String) : Bool :=
  s.data.take p.data.length == p.data

/-- Boolean substring test on character lists. -/
def charListContains (sub : List Char) : List Char → Bool
  | [] => sub.isEmpty
  | x :: t => ((x :: t).take sub.length == sub) || charListContains sub t

/-- Boolean substring test (JavaScript `s.includes(sub)`). -/
def strContainsSub (s sub : String) : Bool :=
  charListContains sub.data s.data

/-- JavaScript object assignment `m[k] = v`: overwrite in place when the key
exists (keeping its position), otherwise append. -/
def objSet (m : List (String × String)) (k v : String) : List (String × String) :=
  if m.any (fun p => p.1 == k) then
    m.map (fun p => if p.1 = k then (k, v) else p)
  else m ++ [(k, v)]

/-- JavaScript `Object.fromEntries`: fold the entries with assign-or-overwrite
semantics. -/
def objFromEntries (l : List (String × String)) : List (String × String) :=
  l.foldl (fun m kv => objSet m kv.1 kv.2) []

/-- Association-list lookup (JavaScript `map[k]` / `headers.get(k)`). -/
def objGet (m : List (String × String)) (k : String) : Option String :=
  (m.find? (fun p => p.1 = k)).map (fun p => p.2)

/-- The segment-matching loop of `matchRoute`: walk the route-pattern segments
and the request-path segments in lockstep, binding `:name` segments and
requiring equality for static segments. The accumulator is the `params`
object built by repeated assignment. -/
def matchSegs : List String → List String → List (String × String) →
    Option (List (String × String))
  | [], [], acc => some acc
  | rp :: rs, pp :: ps, acc =>
    if strStartsWith rp ":" then
      matchSegs rs ps (objSet acc (rp.drop 1) pp)
    else if rp = pp then matchSegs rs ps acc
    else none
  | _, _, _ => none

/-- Embedding of `matchRoute(path, routePath)` from `router-utils`: strip the
query suffix from the request path, strip trailing slashes from both sides,
split into `/`-separated segments discarding empty ones, fail on a segment
count mismatch, and otherwise bind parameter segments. -/
def matchRoute (path routePath : String) : Option (List (String × String)) :=
  let pathWithoutQuery := stripQuery path
  let cleanPath := dropTrailingSlashes pathWithoutQuery
  let cleanRoutePath := dropTrailingSlashes routePath
  if cleanPath = "" ∧ cleanRoutePath = "" then some [] else
  let pathParts := (splitOnCharStr '/' cleanPath).filter (fun s => s ≠ "")
  let routeParts := (splitOnCharStr '/' cleanRoutePath).filter (fun s => s ≠ "")
  if pathParts.length ≠ routeParts.length then none
  else matchSegs routeParts pathParts []

/-- JSON values, as produced by the platform `JSON.parse`. -/
inductive Json where
  | str (s : String)
  | num (n : Int)
  | bool (b : Bool)
  | null
  | arr (xs : List Json)
  | obj (fields : List (String × Json))

/-- A thrown JavaScript value: either an `Error` instance (carrying its
`message`) or any other value (carrying its `String(...)` conversion). -/
inductive Thrown where
  | error (message : String)
  | other (str : String)
deriving DecidableEq

/-- Message extraction used by the router-utils validation engine:
`err instanceof Error ? err.message : String(err)`. -/
def thrownToMessage : Thrown → String
  | .error m => m
  | .other s => s

/-- Authentication payload (`AuthData`); only `userId` is modelled. -/
structure AuthData where
  userId : String
deriving DecidableEq

/-- A fetch-API request, with the URL already parsed. The body stream is
explicit state: `bodyUsed` records whether it has been consumed, `bodyText`
is the raw text payload, and `bodyJson` records what `JSON.parse` yields on
it (`Except.error` for a syntax error). `auth` is the optionally attached
authentication payload of `RequestWithData`. -/
structure Request where
  method : String
  path : String
  searchParams : List (String × String)
  headers : List (String × String)
  bodyText : String
  bodyJson : Except Unit Json
  bodyUsed : Bool
  auth : Option AuthData

/-- The fetch-API `req.clone()`: an independent copy whose body stream state
starts from the original's. -/
def Request.clone (r : Request) : Request := r

/-- The fetch-API `await req.json()`: fails when the body is already used
(`clone()` of a consumed request throws) or when the text is not valid JSON;
otherwise returns the parsed value and the request with its body consumed. -/
def Request.jsonConsume (r : Request) : Except Thrown (Json × Request) :=
  if r.bodyUsed then .error (.error "Body already used")
  else
    match r.bodyJson with
    | .ok j => .ok (j, { r with bodyUsed := true })
    | .error _ => .error (.error "Unexpected token in JSON")

/-- The fetch-API `await req.text()`: fails when the body is already used,
otherwise returns the raw text and the request with its body consumed. -/
def Request.textConsume (r : Request) : Except Thrown (String × Request) :=
  if r.bodyUsed then .error (.error "Body already used")
  else .ok (r.bodyText, { r with bodyUsed := true })

/-- A fetch-API response: status, headers (lower-cased names) and body text. -/
structure Response where
  status : Nat
  headers : List (String × String)
  body : String
deriving DecidableEq

/-- Set a response header if absent (`Router.setContentType`): default the
content type to `application/json` only when none was set explicitly. -/
def setContentType (r : Response) : Response :=
  match objGet r.headers "content-type" with
  | some _ => r
  | none => { r with headers := r.headers ++ [("content-type", "application/json")] }

/-- A dynamically typed value flowing through a `RouterValidator`: the raw
record handed to params/query/headers validators, a decoded JSON body, a raw
text body, the validator's own output, or `undefined`. -/
inductive JsVal where
  | record (m : List (String × String))
  | json (j : Json)
  | str (s : String)
  | out (tag : Nat) (arg : JsVal)
  | undef

/-- A caller-supplied validator (`RouterValidator`): a transform that returns
a value or throws. A `parse`-style object is the same function under
`callValidator`. -/
def RouterValidator := JsVal → Except Thrown JsVal

/-- A validation schema: up to four optional facet validators. -/
structure ValidationSchema where
  params : Option RouterValidator
  query : Option RouterValidator
  headers : Option RouterValidator
  body : Option RouterValidator

/-- One entry of a `ValidationFailedError`: the facet tag and its messages. -/
structure VErrItem where
  type : String
  messages : List String
deriving DecidableEq

/-- The record returned by `validateRequest` on success. -/
structure ValidatedData where
  params : JsVal
  query : JsVal
  headers : JsVal
  body : JsVal

/-- The `// Validate params` block of `validateRequest`: on success replace
the params value with the validator's output, on a throw record a
params-facet failure after the failures already accumulated, and without a
validator leave the raw map in place. -/
def paramsStep (params : List (String × String)) (validation : Option ValidationSchema)
    (acc : ValidatedData × List VErrItem) : ValidatedData × List VErrItem :=
  match validation.bind (fun s => s.params) with
  | some f =>
    match f (.record params) with
    | .ok out => ({ acc.1 with params := out }, acc.2)
    | .error e => (acc.1, acc.2 ++ [⟨"params", [thrownToMessage e]⟩])
  | none => acc

/-- The `// Validate query` block of `validateRequest`: the query string is
parsed into a flat map; validated or passed through unchanged. -/
def queryStep (req : Request) (validation : Option ValidationSchema)
    (acc : ValidatedData × List VErrItem) : ValidatedData × List VErrItem :=
  let queryEntries := objFromEntries req.searchParams
  match validation.bind (fun s => s.query) with
  | some f =>
    match f (.record queryEntries) with
    | .ok out => ({ acc.1 with query := out }, acc.2)
    | .error e => (acc.1, acc.2 ++ [⟨"query", [thrownToMessage e]⟩])
  | none => ({ acc.1 with query := .record queryEntries }, acc.2)

/-- The `// Validate headers` block of `validateRequest`: all request headers
are materialised into a flat map; validated or passed through unchanged. -/
def headersStep (req : Request) (validation : Option ValidationSchema)
    (acc : ValidatedData × List VErrItem) : ValidatedData × List VErrItem :=
  let hdrs := objFromEntries req.headers
  match validation.bind (fun s => s.headers) with
  | some f =>
    match f (.record hdrs) with
    | .ok out => ({ acc.1 with headers := out }, acc.2)
    | .error e => (acc.1, acc.2 ++ [⟨"headers", [thrownToMessage e]⟩])
  | none => ({ acc.1 with headers := .record hdrs }, acc.2)

/-- The `// Validate body` block of `validateRequest`: only processed when a
body validator is supplied. A JSON-like content type triggers a structured
decode of `req.clone()`; a decode failure is recorded as a body failure and
no validator runs. Otherwise the clone's raw text is used. The clone's
consumed state is discarded, so the original request is untouched. -/
def bodyStep (req : Request) (validation : Option ValidationSchema)
    (acc : ValidatedData × List VErrItem) : ValidatedData × List VErrItem :=
  match validation.bind (fun s => s.body) with
  | some f =>
    let contentType := (objGet req.headers "content-type").getD ""
    if strContainsSub contentType "application/json" then
      match (Request.clone req).jsonConsume with
      | .error _ =>
        (acc.1, acc.2 ++ [⟨"body", ["Invalid JSON in request body"]⟩])
      | .ok (j, _) =>
        match f (.json j) with
        | .ok out => ({ acc.1 with body := out }, acc.2)
        | .error e => (acc.1, acc.2 ++ [⟨"body", [thrownToMessage e]⟩])
    else
      match (Request.clone req).textConsume with
      | .error e => (acc.1, acc.2 ++ [⟨"body", [thrownToMessage e]⟩])
      | .ok (s, _) =>
        match f (.str s) with
        | .ok out => ({ acc.1 with body := out }, acc.2)
        | .error e => (acc.1, acc.2 ++ [⟨"body", [thrownToMessage e]⟩])
  | none => acc

/-- Embedding of `validateRequest(req, params, validation)` from
`router-utils`: each of the four facets is attempted in order
(params, query, headers, body), failures are accumulated, and after all four
facets either the aggregated `ValidationFailedError` is thrown or the
combined record is returned. The request is threaded as explicit state: the
body is only ever read through `req.clone()`. -/
def validateRequest (req : Request) (params : List (String × String))
    (validation : Option ValidationSchema) :
    Except (List VErrItem) ValidatedData × Request :=
  let init : ValidatedData × List VErrItem :=
    ({ params := .record params, query := .record [], headers := .record [], body := .undef }, [])
  let res :=
    bodyStep req validation
      (headersStep req validation (queryStep req validation (paramsStep params validation init)))
  ((if res.2 = [] then .ok res.1 else .error res.2), req)

/-- The params-facet failures of a validation run, in isolation. -/
def paramsErrs (params : List (String × String))
    (validation : Option ValidationSchema) : List VErrItem :=
  match validation.bind (fun s => s.params) with
  | some f =>
    match f (.record params) with
    | .ok _ => []
    | .error e => [⟨"params", [thrownToMessage e]⟩]
  | none => []

/-- The query-facet failures of a validation run, in isolation. -/
def queryErrs (req : Request) (validation : Option ValidationSchema) : List VErrItem :=
  match validation.bind (fun s => s.query) with
  | some f =>
    match f (.record (objFromEntries req.searchParams)) with
    | .ok _ => []
    | .error e => [⟨"query", [thrownToMessage e]⟩]
  | none => []

/-- The headers-facet failures of a validation run, in isolation. -/
def headersErrs (req : Request) (validation : Option ValidationSchema) : List VErrItem :=
  match validation.bind (fun s => s.headers) with
  | some f =>
    match f (.record (objFromEntries req.headers)) with
    | .ok _ => []
    | .error e => [⟨"headers", [thrownToMessage e]⟩]
  | none => []

/-- The body-facet failures of a validation run, in isolation. -/
def bodyErrs (req : Request) (validation : Option ValidationSchema) : List VErrItem :=
  match validation.bind (fun s => s.body) with
  | some f =>
    let contentType := (objGet req.headers "content-type").getD ""
    if strContainsSub contentType "application/json" then
      match (Request.clone req).jsonConsume with
      | .error _ => [⟨"body", ["Invalid JSON in request body"]⟩]
      | .ok (j, _) =>
        match f (.json j) with
        | .ok _ => []
        | .error e => [⟨"body", [thrownToMessage e]⟩]
    else
      match (Request.clone req).textConsume with
      | .error e => [⟨"body", [thrownToMessage e]⟩]
      | .ok (s, _) =>
        match f (.str s) with
        | .ok _ => []
        | .error e => [⟨"body", [thrownToMessage e]⟩]
  | none => []

/-- All facet failures of a validation run, in facet order. -/
def allErrs (req : Request) (params : List (String × String))
    (validation : Option ValidationSchema) : List VErrItem :=
  paramsErrs params validation ++ queryErrs req validation ++
    headersErrs req validation ++ bodyErrs req validation

/-- The aggregated failure list actually thrown by a validation run (empty
when validation succeeds). -/
def errsOf (req : Request) (params : List (String × String))
    (validation : Option ValidationSchema) : List VErrItem :=
  match (validateRequest req params validation).1 with
  | .error es => es
  | .ok _ => []

/-- Serialise a message list as a JSON array of strings. -/
def jsonStrArr (l : List String) : String :=
  "[" ++ String.intercalate "," (l.map (fun s => "\"" ++ s ++ "\"")) ++ "]"

/-- Serialise the `details` array of a validation-failure response body. -/
def detailsJson (errs : List VErrItem) : String :=
  "[" ++ String.intercalate ","
    (errs.map (fun e =>
      "\x7b\"type\":\"" ++ e.type ++ "\",\"messages\":" ++ jsonStrArr e.messages ++ "\x7d")) ++ "]"

/-- The 400 response built from a `ValidationFailedError`
(`Router.buildValidationErrorRes`). -/
def validationFailed400 (errs : List VErrItem) : Response :=
  { status := 400
    headers := [("content-type", "application/json")]
    body := "\x7b\"error\":\"Validation failed\",\"details\":" ++ detailsJson errs ++ "\x7d" }

/-- The 404 response of `Router.notFoundRes`. -/
def notFoundRes : Response :=
  { status := 404
    headers := [("content-type", "application/json")]
    body := "\x7b\"error\":\"Not Found\"\x7d" }

/-- The terminal 500 response of `AuthHandler.handleAuth` when authentication
is required but no config exists. -/
def authConfigError500 : Response :=
  { status := 500
    headers := [("content-type", "application/json")]
    body := "\x7b\"error\":\"Authentication configuration error\",\"message\":\"Authentication is required but no auth config was provided\"\x7d" }

/-- The default 401 response of `AuthHandler.handleAuth` when the verify step
throws and no error mapper is configured. -/
def authFailed401 (message : String) : Response :=
  { status := 401
    headers := [("content-type", "application/json")]
    body := "\x7b\"error\":\"Authentication failed\",\"message\":\"" ++ message ++ "\"\x7d" }

/-- The default 500 response of `Router.handleError`: the thrown failure's
message when it is an `Error`, a generic fallback string otherwise. -/
def default500 (e : Thrown) : Response :=
  { status := 500
    headers := [("content-type", "application/json")]
    body := "\x7b\"error\":\"Internal Server Error\",\"message\":\"" ++
      (match e with
       | .error m => m
       | .other _ => "An unexpected error occurred.") ++ "\"\x7d" }

/-- One observable step of the dispatch pipeline. -/
inductive Event where
  | hookRequest (name : String)
  | mwGlobal (tag : Nat)
  | mwPath (tag : Nat)
  | mwRoute (tag : Nat)
  | routeMatch
  | authVerify
  | validateRun
  | handlerRun
  | hookError (name : String)
  | hookResponse (name : String)
deriving DecidableEq

/-- A middleware: returns a terminal response or `null` (continue). The `tag`
identifies the middleware in the event trace. -/
structure Middleware where
  tag : Nat
  run : Request → Option Response

/-- A route handler: receives the (possibly auth-augmented) request and the
validated data record, and returns a response or throws. -/
def RouteHandler := Request → ValidatedData → Except Thrown Response

/-- An auth config (`AuthConfig` / `AuthMiddlewareConfig`): a verify step
from request to payload or a thrown failure, and an optional error-to-response
mapper, which receives the failure's `Error` message. -/
structure AuthConfig where
  verify : Request → Except Thrown AuthData
  onError : Option (String → Response)

/-- The `auth` option of a route config: absent, boolean, or an object. -/
inductive AuthOpt where
  | none
  | bool (b : Bool)
  | config (c : AuthConfig)

/-- JavaScript truthiness of the `auth` option (`!authConfig`). -/
def authTruthy : AuthOpt → Bool
  | .none => false
  | .bool b => b
  | .config _ => true

/-- The `AuthHandler` class: holds an optional auth config. -/
structure AuthHandler where
  config : Option AuthConfig

/-- A plugin (`RouterPlugin`), restricted to its dispatch-time hooks; each
hook is independently optional. -/
structure Plugin where
  name : String
  onRequest : Option (Request → Option Response)
  onError : Option (Thrown → Request → Option Response)
  onResponse : Option (Request → Response → Option Response)

/-- A stored route: `(method, pattern)` plus the route config the wrapped
handler closed over. -/
structure Route where
  path : String
  method : String
  auth : AuthOpt
  validation : Option ValidationSchema
  middleware : Option (List Middleware)
  handler : RouteHandler

/-- The `Router` instance state at dispatch time. -/
structure Router where
  routes : List Route
  globalMws : List Middleware
  pathMws : List (String × List Middleware)
  authHandler : Option AuthHandler
  onError : Option (Thrown → Request → Response)
  plugins : List Plugin

/-- Embedding of `AuthHandler.handleAuth(req, authConfig)`: skip when auth is
not required; terminal 500 when no config is held; otherwise run the
route-specific verify step if the option is an object, else the held
config's, and on a throw map the failure through the route-specific error
mapper, the held config's error mapper, or the default 401. -/
def AuthHandler.handleAuth (h : AuthHandler) (req : Request) (authOpt : AuthOpt) :
    (Option Response × Option AuthData) × List Event :=
  if authTruthy authOpt = false then ((none, none), [])
  else
    match h.config with
    | none => ((some authConfigError500, none), [])
    | some cfg =>
      let verifyFn := match authOpt with | .config c => c.verify | _ => cfg.verify
      match verifyFn req with
      | .ok d => ((none, some d), [.authVerify])
      | .error e =>
        let errorHandler : Option (String → Response) :=
          match authOpt with
          | .config c => match c.onError with | some f => some f | none => cfg.onError
          | _ => cfg.onError
        let msg := thrownToMessage e
        ((some (match errorHandler with
                | some f => f msg
                | none => authFailed401 msg), none), [.authVerify])

/-- Embedding of `AuthHandler.authenticateRequest`: build a temporary
`AuthHandler` holding only the route-level config, authenticate with a
boolean `true` option against it, then attach the payload to a clone of the
request, validate the original request, and call the handler. Validation
failures become the 400 response; other handler throws propagate. -/
def AuthHandler.authenticateRequest (c : AuthConfig) (req : Request)
    (params : List (String × String)) (validation : Option ValidationSchema)
    (handler : RouteHandler) : Except Thrown Response × List Event :=
  let tempHandler : AuthHandler := { config := some c }
  match tempHandler.handleAuth req (.bool true) with
  | ((some r, _), evs) => (.ok r, evs)
  | ((none, authData), evs) =>
    let authedReq := { Request.clone req with auth := authData }
    match (validateRequest req params validation).1 with
    | .ok data =>
      match handler authedReq data with
      | .ok r => (.ok r, evs ++ [.validateRun, .handlerRun])
      | .error e => (.error e, evs ++ [.validateRun, .handlerRun])
    | .error es => (.ok (validationFailed400 es), evs ++ [.validateRun])

/-- The no-auth path of `Router.runAuth`: validate, then call the handler on
the unmodified request; a `ValidationFailedError` becomes the 400 response
and other throws propagate. -/
def runNoAuth (req : Request) (params : List (String × String)) (route : Route) :
    Except Thrown Response × List Event :=
  match (validateRequest req params route.validation).1 with
  | .ok data =>
    match route.handler req data with
    | .ok r => (.ok r, [.validateRun, .handlerRun])
    | .error e => (.error e, [.validateRun, .handlerRun])
  | .error es => (.ok (validationFailed400 es), [.validateRun])

/-- Embedding of `Router.runAuth`: when no auth handler is held or the route
does not require auth, run validation and the handler directly; when the
route's auth option is an object, delegate to `authenticateRequest` with the
route-level config; otherwise authenticate against the held global config,
attach the payload to a clone, validate, and call the handler. -/
def Router.runAuth (rt : Router) (req : Request) (params : List (String × String))
    (route : Route) : Except Thrown Response × List Event :=
  match rt.authHandler with
  | none => runNoAuth req params route
  | some ah =>
    if authTruthy route.auth = false then runNoAuth req params route
    else
      match route.auth with
      | .config c => AuthHandler.authenticateRequest c req params route.validation route.handler
      | a =>
        match ah.handleAuth req a with
        | ((some r, _), evs) => (.ok r, evs)
        | ((none, authData), evs) =>
          let authReq := { Request.clone req with auth := authData }
          match (validateRequest req params route.validation).1 with
          | .ok data =>
            match route.handler authReq data with
            | .ok r => (.ok r, evs ++ [.validateRun, .handlerRun])
            | .error e => (.error e, evs ++ [.validateRun, .handlerRun])
          | .error es => (.ok (validationFailed400 es), evs ++ [.validateRun])

/-- Embedding of `Router.runMiddlewares`: run the middleware list in order,
stopping at the first terminal response. The tagger records which tier the
executed middleware belongs to. -/
def runMiddlewaresT (tagger : Nat → Event) (req : Request) :
    List Middleware → Option Response × List Event
  | [] => (none, [])
  | mw :: rest =>
    match mw.run req with
    | some r => (some r, [tagger mw.tag])
    | none =>
      let next := runMiddlewaresT tagger req rest
      (next.1, tagger mw.tag :: next.2)

/-- Embedding of `Router.runPathMiddlewares`: iterate the registered
`(prefix, middleware list)` entries in insertion order, running each group
whose prefix the request path starts with, stopping at the first terminal
response. -/
def runPathMiddlewaresT (req : Request) (path : String) :
    List (String × List Middleware) → Option Response × List Event
  | [] => (none, [])
  | (p, mws) :: rest =>
    if strStartsWith path p then
      match runMiddlewaresT Event.mwPath req mws with
      | (some r, evs) => (some r, evs)
      | (none, evs) =>
        let next := runPathMiddlewaresT req path rest
        (next.1, evs ++ next.2)
    else runPathMiddlewaresT req path rest

/-- Embedding of `Router.runPluginHook('onRequest', req)`: invoke each
plugin's hook (when implemented) in registration order; the first response
returned stops further plugin invocation. -/
def runPluginOnRequest : List Plugin → Request → Option Response × List Event
  | [], _ => (none, [])
  | p :: rest, req =>
    match p.onRequest with
    | none => runPluginOnRequest rest req
    | some hook =>
      match hook req with
      | some r => (some r, [.hookRequest p.name])
      | none =>
        let next := runPluginOnRequest rest req
        (next.1, .hookRequest p.name :: next.2)

/-- Embedding of `Router.runPluginHook('onError', error, req)`. -/
def runPluginOnError : List Plugin → Thrown → Request → Option Response × List Event
  | [], _, _ => (none, [])
  | p :: rest, e, req =>
    match p.onError with
    | none => runPluginOnError rest e req
    | some hook =>
      match hook e req with
      | some r => (some r, [.hookError p.name])
      | none =>
        let next := runPluginOnError rest e req
        (next.1, .hookError p.name :: next.2)

/-- Embedding of `Router.runPluginResponseHook(req, res)`: every plugin with
an `onResponse` hook runs, in registration order, each receiving the
(possibly already-replaced) response threaded from the previous one. -/
def runPluginOnResponse : List Plugin → Request → Response → Response × List Event
  | [], _, res => (res, [])
  | p :: rest, req, res =>
    match p.onResponse with
    | none => runPluginOnResponse rest req res
    | some hook =>
      let res2 := match hook req res with | some r => r | none => res
      let next := runPluginOnResponse rest req res2
      (next.1, .hookResponse p.name :: next.2)

/-- Embedding of `Router.matchRouteHandler`: walk the route table in
registration order and return the first route whose method equals the
request's and whose pattern structurally matches the path. -/
def matchFirst (method path : String) : List Route →
    Option (Route × List (String × String))
  | [] => none
  | r :: rest =>
    if r.method = method then
      match matchRoute path r.path with
      | some params => some (r, params)
      | none => matchFirst method path rest
    else matchFirst method path rest

/-- Embedding of `Router.handleError`: offer the failure to plugin `onError`
hooks; otherwise use the caller-supplied global error handler when
configured, and the default 500 otherwise. -/
def Router.handleErrorT (rt : Router) (e : Thrown) (req : Request) :
    Response × List Event :=
  match runPluginOnError rt.plugins e req with
  | (some r, evs) => (r, evs)
  | (none, evs) =>
    ((match rt.onError with
      | some f => f e req
      | none => default500 e), evs)

/-- Embedding of `Router.handle(req)`: the fixed per-request pipeline —
plugin `onRequest`, global middleware, path-prefixed middleware, route
matching (404 on none), route middleware, the wrapped route handler
(auth → validation → handler), content-type defaulting, and plugin
`onResponse` on every outcome; any propagated throw is translated by
`handleErrorT` and also passes through `onResponse`. Besides the
`Response | null` result, the interpreter returns the event trace. -/
def Router.handleT (rt : Router) (req : Request) : Option Response × List Event :=
  match runPluginOnRequest rt.plugins req with
  | (some r, evs0) =>
    let fin := runPluginOnResponse rt.plugins req r
    (some fin.1, evs0 ++ fin.2)
  | (none, evs0) =>
    match runMiddlewaresT Event.mwGlobal req rt.globalMws with
    | (some r, evs1) =>
      let fin := runPluginOnResponse rt.plugins req r
      (some fin.1, evs0 ++ evs1 ++ fin.2)
    | (none, evs1) =>
      match runPathMiddlewaresT req req.path rt.pathMws with
      | (some r, evs2) =>
        let fin := runPluginOnResponse rt.plugins req r
        (some fin.1, evs0 ++ evs1 ++ evs2 ++ fin.2)
      | (none, evs2) =>
        match matchFirst req.method req.path rt.routes with
        | none =>
          let fin := runPluginOnResponse rt.plugins req notFoundRes
          (some fin.1, evs0 ++ evs1 ++ evs2 ++ [.routeMatch] ++ fin.2)
        | some (route, params) =>
          match runMiddlewaresT Event.mwRoute req (route.middleware.getD []) with
          | (some r, evs3) =>
            let fin := runPluginOnResponse rt.plugins req r
            (some fin.1, evs0 ++ evs1 ++ evs2 ++ [.routeMatch] ++ evs3 ++ fin.2)
          | (none, evs3) =>
            match Router.runAuth rt req params route with
            | (.ok res, evs4) =>
              let res' := setContentType res
              let fin := runPluginOnResponse rt.plugins req res'
              (some fin.1, evs0 ++ evs1 ++ evs2 ++ [.routeMatch] ++ evs3 ++ evs4 ++ fin.2)
            | (.error e, evs4) =>
              let er := Router.handleErrorT rt e req
              let fin := runPluginOnResponse rt.plugins req er.1
              (some fin.1,
               evs0 ++ evs1 ++ evs2 ++ [.routeMatch] ++ evs3 ++ evs4 ++ er.2 ++ fin.2)

/-- A route config as threaded through `onBeforeRouteRegister`. -/
structure RouteConfig where
  validation : Option ValidationSchema
  middleware : Option (List Middleware)

/-- The result of an `onBeforeRouteRegister` hook: optionally a replacement
config and/or a replacement handler (`undefined` fields keep the current
value); a hook may also return nothing at all. -/
structure BeforeRegisterResult where
  opts : Option RouteConfig
  handler : Option RouteHandler

/-- A plugin's optional `onBeforeRouteRegister` hook, as consumed by the
updated `addRoute`: it receives the method, the path, and the current
(possibly already rewritten) config and handler. The router self-reference
argument is omitted from the embedding. -/
structure RegPlugin where
  name : String
  onBeforeRouteRegister :
    Option (String → String → RouteConfig → RouteHandler → Option BeforeRegisterResult)

/-- A stored route of the updated router: pattern, method, the final config
and the final (unwrapped) handler that the validation wrapper closes over. -/
structure RegRoute where
  path : String
  method : String
  opts : RouteConfig
  handler : RouteHandler

/-- The updated router's registration-time state. -/
structure RegRouter where
  routes : List RegRoute
  plugins : List RegPlugin

/-- One plugin's rewrite step inside the updated `addRoute`: when the plugin
implements the hook and returns a result, its non-absent fields replace the
accumulated config and handler. -/
def beforeRegisterStep (method path : String) (acc : RouteConfig × RouteHandler)
    (pl : RegPlugin) : RouteConfig × RouteHandler :=
  match pl.onBeforeRouteRegister with
  | none => acc
  | some hook =>
    match hook method path acc.1 acc.2 with
    | none => acc
    | some result =>
      ((match result.opts with | some o => o | none => acc.1),
       (match result.handler with | some h => h | none => acc.2))

/-- Embedding of the updated `Router.addRoute(method, path, opts, handler)`:
fold the registered plugins' `onBeforeRouteRegister` rewrites over the
initial config and handler — each plugin seeing the previous plugin's output
— and append the route built from the final pair to the route table. -/
def RegRouter.addRoute (rt : RegRouter) (method path : String)
    (opts : RouteConfig) (handler : RouteHandler) : RegRouter :=
  let final := rt.plugins.foldl (beforeRegisterStep method path) (opts, handler)
  { rt with routes := rt.routes ++ [RegRoute.mk path method final.1 final.2] }

/-- A GET request to `/protected` with an empty body. -/
def c1Req : Request :=
  { method := "GET", path := "/protected", searchParams := [], headers := [],
    bodyText := "", bodyJson := .error (), bodyUsed := false, auth := none }

/-- A router with no global auth config and one route declaring `auth: true`. -/
def c1Router : Router :=
  { routes := [⟨"/protected", "GET", .bool true, none, none,
      fun _ _ => .ok ⟨200, [], "protected data"⟩⟩],
    globalMws := [], pathMws := [], authHandler := none, onError := none, plugins := [] }

/-- The response the global error mapper of the C2 scenario produces. -/
def c2GlobalMapped : Response :=
  ⟨403, [("content-type", "application/json")], "global mapped"⟩

/-- A global auth config whose verify step succeeds and whose error mapper
returns `c2GlobalMapped`. -/
def c2GlobalCfg : AuthConfig :=
  { verify := fun _ => .ok ⟨"global"⟩, onError := some (fun _ => c2GlobalMapped) }

/-- A route-level auth config whose verify step throws and which declares no
error mapper of its own. -/
def c2RouteCfg : AuthConfig :=
  { verify := fun _ => .error (.error "bad token"), onError := none }

/-- The C2 route: object-shaped auth config, no validation, no middleware. -/
def c2Route : Route :=
  ⟨"/admin", "GET", .config c2RouteCfg, none, none, fun _ _ => .ok ⟨200, [], "admin"⟩⟩

/-- A router holding the global config with the error mapper, plus `c2Route`. -/
def c2Router : Router :=
  { routes := [c2Route], globalMws := [], pathMws := [],
    authHandler := some ⟨some c2GlobalCfg⟩, onError := none, plugins := [] }

/-- A GET request to `/admin`. -/
def c2Req : Request :=
  { method := "GET", path := "/admin", searchParams := [], headers := [],
    bodyText := "", bodyJson := .error (), bodyUsed := false, auth := none }

/-- The parameter names of a segment list, in order (one per dynamic
segment, duplicates included). -/
def dynOfSegs (rs : List String) : List String :=
  rs.filterMap (fun r => if strStartsWith r ":" then some (r.drop 1) else none)

/-- The parameter names of a route pattern, one per dynamic segment. -/
def dynNames (pattern : String) : List String :=
  dynOfSegs ((splitOnCharStr '/' (dropTrailingSlashes pattern)).filter (fun s => s ≠ ""))

/-- Reference path-matching algorithm, written from the specification text:
strip any query suffix from the request path, strip trailing slashes from
both sides, split on `/` discarding empty segments; no-match when segment
counts differ or a non-parameter pattern segment is not string-equal to its
request segment; otherwise the map binding each parameter segment's name to
the corresponding request segment's literal value. -/
def matchSpec (path pattern : String) : Option (List (String × String)) :=
  let ps := (splitOnCharStr '/' (dropTrailingSlashes (stripQuery path))).filter (fun s => s ≠ "")
  let rs := (splitOnCharStr '/' (dropTrailingSlashes pattern)).filter (fun s => s ≠ "")
  if ps.length = rs.length ∧ (rs.zip ps).all (fun z => strStartsWith z.1 ":" || z.1 == z.2)
  then some ((rs.zip ps).foldl
    (fun acc z => if strStartsWith z.1 ":" then objSet acc (z.1.drop 1) z.2 else acc) [])
  else none

/-- The raw path params of the C4 example: an id that is too short. -/
def c4Params : List (String × String) := [("id", "12")]

/-- The C4 example schema: a params validator requiring a 3+ character id, a
query validator rejecting a negative page, and a body validator requiring an
age field; no headers validator. -/
def c4Validation : ValidationSchema :=
  { params := some (fun input =>
      match input with
      | .record m =>
        match objGet m "id" with
        | some s => if s.length ≥ 3 then .ok input else .error (.error "id too short")
        | none => .error (.error "id is required")
      | _ => .error (.error "expected params record"))
    query := some (fun input =>
      match input with
      | .record m =>
        match objGet m "page" with
        | some "-1" => .error (.error "page must be positive")
        | _ => .ok input
      | _ => .error (.error "expected query record"))
    headers := none
    body := some (fun input =>
      match input with
      | .json (.obj fields) =>
        if fields.any (fun f => f.1 == "age") then .ok input
        else .error (.error "age is required")
      | _ => .error (.error "expected JSON object body")) }

/-- The C4 example request: negative page in the query, JSON body missing the
required age field. -/
def c4Req : Request :=
  { method := "POST", path := "/test", searchParams := [("page", "-1")],
    headers := [("content-type", "application/json")],
    bodyText := "\x7b\"name\":\"Jo\"\x7d",
    bodyJson := .ok (.obj [("name", .str "Jo")]), bodyUsed := false, auth := none }

/-- The C5 example schema: only a body validator. -/
def c5Validation : ValidationSchema :=
  { params := none, query := none, headers := none,
    body := some (fun input => .ok input) }

/-- The C5 example request: an unconsumed JSON body. -/
def c5Req : Request :=
  { method := "POST", path := "/x", searchParams := [],
    headers := [("content-type", "application/json")],
    bodyText := "7", bodyJson := .ok (.num 7), bodyUsed := false, auth := none }

/-- The C6 example schema: a params validator that rethrows a non-error
value. -/
def c6Validation : ValidationSchema :=
  { params := some (fun _ => .error (.other "42")), query := none,
    headers := none, body := none }

/-- The C6 example request. -/
def c6Req : Request :=
  { method := "GET", path := "/y", searchParams := [], headers := [],
    bodyText := "", bodyJson := .error (), bodyUsed := false, auth := none }

/-- The path-scoped middleware that applies to a request path: the groups of
every registered prefix the path starts with, concatenated in insertion
order. -/
def pathChain (l : List (String × List Middleware)) (path : String) : List Middleware :=
  (l.filter (fun pr => strStartsWith path pr.1)).foldr (fun pr acc => pr.2 ++ acc) []

/-- The C10 example router: no routes, middleware, auth, or plugins. -/
def c10Router : Router :=
  { routes := [], globalMws := [], pathMws := [], authHandler := none,
    onError := none, plugins := [] }

/-- The C10 example request. -/
def c10Req : Request :=
  { method := "GET", path := "/missing", searchParams := [], headers := [],
    bodyText := "", bodyJson := .error (), bodyUsed := false, auth := none }

/-- The C7 example terminal response. -/
def c7Resp : Response := ⟨503, [("content-type", "text/plain")], "blocked"⟩

/-- The C7 example global middleware: tag 5, always terminal. -/
def c7Mw : Middleware := ⟨5, fun _ => some c7Resp⟩

/-- The C7 example router: the blocking global middleware, plus a path
middleware, an authenticated route, and a global auth config that would all
run if the pipeline continued. -/
def c7Router : Router :=
  { routes := [⟨"/z", "GET", .bool true, none, none, fun _ _ => .ok ⟨200, [], "zz"⟩⟩],
    globalMws := [c7Mw],
    pathMws := [("/z", [⟨6, fun _ => none⟩])],
    authHandler := some ⟨some ⟨fun _ => .ok ⟨"u"⟩, none⟩⟩,
    onError := none, plugins := [] }

/-- The C7 example request, which would match the route. -/
def c7Req : Request :=
  { method := "GET", path := "/z", searchParams := [], headers := [],
    bodyText := "", bodyJson := .error (), bodyUsed := false, auth := none }

/-! ## Theorems -/

theorem validateRequest_preserves_request (req : Request)
    (p : List (String × String)) (v : Option ValidationSchema) :
    (validateRequest req p v).2 = req := rfl

theorem paramsStep_errs (p : List (String × String)) (v : Option ValidationSchema)
    (acc : ValidatedData × List VErrItem) :
    (paramsStep p v acc).2 = acc.2 ++ paramsErrs p v := by
  unfold paramsStep paramsErrs
  rcases hP : v.bind (fun s => s.params) with _ | f
  · simp
  · rcases hr : f (.record p) with e | o <;> simp [hr]

theorem queryStep_errs (req : Request) (v : Option ValidationSchema)
    (acc : ValidatedData × List VErrItem) :
    (queryStep req v acc).2 = acc.2 ++ queryErrs req v := by
  unfold queryStep queryErrs
  rcases hQ : v.bind (fun s => s.query) with _ | f
  · simp
  · rcases hr : f (.record (objFromEntries req.searchParams)) with e | o <;> simp [hr]

theorem headersStep_errs (req : Request) (v : Option ValidationSchema)
    (acc : ValidatedData × List VErrItem) :
    (headersStep req v acc).2 = acc.2 ++ headersErrs req v := by
  unfold headersStep headersErrs
  rcases hH : v.bind (fun s => s.headers) with _ | f
  · simp
  · rcases hr : f (.record (objFromEntries req.headers)) with e | o <;> simp [hr]

theorem bodyStep_errs (req : Request) (v : Option ValidationSchema)
    (acc : ValidatedData × List VErrItem) :
    (bodyStep req v acc).2 = acc.2 ++ bodyErrs req v := by
  unfold bodyStep bodyErrs
  rcases hB : v.bind (fun s => s.body) with _ | f
  · simp
  · cases hCT : strContainsSub ((objGet req.headers "content-type").getD "") "application/json"
    · simp only [hCT, Bool.false_eq_true, if_false]
      rcases hTC : (Request.clone req).textConsume with e | ⟨s, c⟩
      · simp
      · rcases hr : f (.str s) with e | o <;> simp [hr]
    · simp only [hCT, if_true]
      rcases hJC : (Request.clone req).jsonConsume with e | ⟨j, c⟩
      · simp
      · rcases hr : f (.json j) with e | o <;> simp [hr]

theorem validateRequest_errs (req : Request) (p : List (String × String))
    (v : Option ValidationSchema) :
    (validateRequest req p v).1 =
      (if allErrs req p v = [] then
        .ok (bodyStep req v (headersStep req v (queryStep req v (paramsStep p v
          ({ params := .record p, query := .record [], headers := .record [], body := .undef }, []))))).1
       else .error (allErrs req p v)) := by
  simp only [validateRequest, allErrs]
  rw [show (bodyStep req v (headersStep req v (queryStep req v (paramsStep p v
      ({ params := .record p, query := .record [], headers := .record [], body := .undef }, []))))).2 =
      paramsErrs p v ++ queryErrs req v ++ headersErrs req v ++ bodyErrs req v from by
    rw [bodyStep_errs, headersStep_errs, queryStep_errs, paramsStep_errs]
    try simp [List.append_assoc]]
  try simp [List.append_assoc]

theorem validateRequest_error_eq (req : Request) (p : List (String × String))
    (v : Option ValidationSchema) (h : allErrs req p v ≠ []) :
    (validateRequest req p v).1 = .error (allErrs req p v) := by
  rw [validateRequest_errs, if_neg h]

/-- C1: dispatching a route registered with `auth: true` on a dispatcher that
has no global auth config does NOT resolve to the misconfigured terminal 500:
the guard `!this.authHandler || !opts.auth` in `Router.runAuth` routes the
request through the no-auth path, so validation and the handler do run and
the handler's 200 response is returned. The `AuthHandler` component itself
does hold the claimed misconfigured 500 branch, but the dispatcher never
reaches it (it only ever constructs an `AuthHandler` together with a config),
so the code contradicts the claimed (and spec-stated) behaviour. -/
theorem c1_missing_global_auth_config_skips_auth :
    Router.handleT c1Router c1Req =
      (some ⟨200, [("content-type", "application/json")], "protected data"⟩,
       [.routeMatch, .validateRun, .handlerRun]) ∧
    (AuthHandler.handleAuth ⟨none⟩ c1Req (.bool true)).1.1 = some authConfigError500 ∧
    authConfigError500.status = 500 := by decide

/-- C2 counterexample: with a global error mapper configured and a route-level
auth object that declares no mapper of its own, a failing verify step yields
the built-in default 401 response, not the global mapper's response — so the
claimed fallback to the global error mapper does not happen. -/
theorem c2_counterexample_global_mapper_not_used :
    (Router.handleT c2Router c2Req).1 = some (authFailed401 "bad token") ∧
    (Router.handleT c2Router c2Req).1 ≠ some c2GlobalMapped := by decide

/-- C2 (amended): for every route whose auth option is an object, dispatch
uses that route-level config's verify step even when a global config with a
different verify step is set; and when the route-level config declares no
error mapper of its own and the verify step fails, the built-in default 401
response is produced — the global config's error mapper is not consulted.
(`authenticateRequest` builds a temporary `AuthHandler` from the route config
alone, so the fallback error mapper is again the route config's.) -/
theorem c2_route_auth_object_precedence
    (rt : Router) (req : Request) (params : List (String × String)) (route : Route)
    (c : AuthConfig) (ah : AuthHandler)
    (hah : rt.authHandler = some ah) (hauth : route.auth = .config c) :
    (∀ e, c.verify req = .error e →
      Router.runAuth rt req params route =
        (.ok (match c.onError with
              | some f => f (thrownToMessage e)
              | none => authFailed401 (thrownToMessage e)), [.authVerify])) ∧
    (∀ d, c.verify req = .ok d →
      Router.runAuth rt req params route =
        (match (validateRequest req params route.validation).1 with
         | .ok data =>
           match route.handler { Request.clone req with auth := some d } data with
           | .ok r => (.ok r, [.authVerify, .validateRun, .handlerRun])
           | .error e2 => (.error e2, [.authVerify, .validateRun, .handlerRun])
         | .error es => (.ok (validationFailed400 es), [.authVerify, .validateRun]))) := by
  constructor
  · intro e he
    simp [Router.runAuth, AuthHandler.authenticateRequest, AuthHandler.handleAuth,
      authTruthy, hah, hauth, he]
  · intro d hd
    simp only [Router.runAuth, hah, hauth, authTruthy]
    simp [AuthHandler.authenticateRequest, AuthHandler.handleAuth, authTruthy, hd]

/-- C2 witness: the amended theorem applied to the concrete C2 scenario. -/
theorem c2_witness :
    Router.runAuth c2Router c2Req [] c2Route = (.ok (authFailed401 "bad token"), [.authVerify]) := by
  have h := (c2_route_auth_object_precedence c2Router c2Req [] c2Route c2RouteCfg
    ⟨some c2GlobalCfg⟩ rfl rfl).1 (.error "bad token") rfl
  simpa using h

/-- C3: the updated `addRoute` threads the config and handler through the
registered plugins' before-route-register hooks as a chained rewrite. With
two plugins that each transform what they receive, the stored route holds the
second plugin's transform applied to the first plugin's output — config
`t2 (t1 opts)` and handler `w2 (w1 h)` — so both handler wrappers are
applied, composed in registration order with the later plugin outermost.
In general the fold over a concatenation of plugin lists feeds the first
list's final rewrite into the second list (chained, not independent). -/
theorem c3_before_route_register_chained
    (routes0 : List RegRoute) (method path : String) (opts : RouteConfig)
    (h : RouteHandler) (t1 t2 : RouteConfig → RouteConfig)
    (w1 w2 : RouteHandler → RouteHandler) (n1 n2 : String) :
    (RegRouter.addRoute
      { routes := routes0,
        plugins := [⟨n1, some (fun _ _ o hh => some ⟨some (t1 o), some (w1 hh)⟩)⟩,
                    ⟨n2, some (fun _ _ o hh => some ⟨some (t2 o), some (w2 hh)⟩)⟩] }
      method path opts h).routes =
      routes0 ++ [RegRoute.mk path method (t2 (t1 opts)) (w2 (w1 h))] ∧
    (∀ (ps qs : List RegPlugin) (acc : RouteConfig × RouteHandler),
      (ps ++ qs).foldl (beforeRegisterStep method path) acc =
        qs.foldl (beforeRegisterStep method path)
          (ps.foldl (beforeRegisterStep method path) acc)) := by
  refine ⟨rfl, ?_⟩
  intro ps qs acc
  exact List.foldl_append _ _ _ _

theorem objSet_of_not_mem (m : List (String × String)) (k v : String)
    (h : k ∉ m.map Prod.fst) : objSet m k v = m ++ [(k, v)] := by
  have hfalse : (m.any fun p => p.1 == k) = false := by
    rw [List.any_eq_false]
    intro p hp hk
    exact h (List.mem_map.mpr ⟨p, hp, eq_of_beq hk⟩)
  simp [objSet, hfalse]

theorem matchSegs_eq_spec : ∀ (rs ps : List String) (acc : List (String × String)),
    rs.length = ps.length →
    matchSegs rs ps acc =
      (if (rs.zip ps).all (fun z => strStartsWith z.1 ":" || z.1 == z.2)
       then some ((rs.zip ps).foldl
         (fun a z => if strStartsWith z.1 ":" then objSet a (z.1.drop 1) z.2 else a) acc)
       else none) := by
  intro rs
  induction rs with
  | nil =>
    intro ps acc h
    cases ps with
    | nil => simp [matchSegs]
    | cons p pt => simp at h
  | cons r rt ih =>
    intro ps acc h
    cases ps with
    | nil => simp at h
    | cons p pt =>
      have h' : rt.length = pt.length := by simpa using h
      simp only [matchSegs, List.zip_cons_cons, List.all_cons, List.foldl_cons]
      by_cases hdyn : strStartsWith r ":" = true
      · rw [if_pos hdyn, if_pos hdyn, ih pt (objSet acc (r.drop 1) p) h']
        exact (if_congr (by rw [hdyn]; simp) rfl rfl).symm
      · have hdynF : strStartsWith r ":" = false := by
          simpa using hdyn
        by_cases heq : r = p
        · subst heq
          rw [if_neg hdyn, if_pos rfl, if_neg hdyn, ih pt acc h']
          exact (if_congr (by rw [hdynF]; simp) rfl rfl).symm
        · rw [if_neg hdyn, if_neg heq]
          have hbeq : (r == p) = false := beq_eq_false_iff_ne.mpr heq
          rw [hdynF, hbeq]
          rw [show ((false || false) && ((rt.zip pt).all fun z => strStartsWith z.1 ":" || z.1 == z.2)) = false by simp]
          simp

theorem matchRoute_eq_matchSpec (path pattern : String) :
    matchRoute path pattern = matchSpec path pattern := by
  simp only [matchRoute, matchSpec]
  by_cases hemp : dropTrailingSlashes (stripQuery path) = "" ∧ dropTrailingSlashes pattern = ""
  · obtain ⟨h1, h2⟩ := hemp
    rw [if_pos ⟨h1, h2⟩, h1, h2]
    decide
  · rw [if_neg hemp]
    by_cases hlen :
        ((splitOnCharStr '/' (dropTrailingSlashes (stripQuery path))).filter (fun s => s ≠ "")).length =
        ((splitOnCharStr '/' (dropTrailingSlashes pattern)).filter (fun s => s ≠ "")).length
    · rw [if_neg (not_not_intro hlen), matchSegs_eq_spec _ _ _ hlen.symm]
      by_cases hall :
          (((splitOnCharStr '/' (dropTrailingSlashes pattern)).filter (fun s => s ≠ "")).zip
            ((splitOnCharStr '/' (dropTrailingSlashes (stripQuery path))).filter (fun s => s ≠ ""))).all
            (fun z => strStartsWith z.1 ":" || z.1 == z.2) = true
      · rw [if_pos hall, if_pos ⟨hlen, hall⟩]
      · rw [if_neg hall, if_neg (fun hc => hall hc.2)]
    · rw [if_pos hlen, if_neg (fun hc => hlen hc.1)]

theorem matchSegs_keys : ∀ (rs ps : List String) (acc m : List (String × String)),
    matchSegs rs ps acc = some m →
    (acc.map Prod.fst ++ dynOfSegs rs).Nodup →
    m.map Prod.fst = acc.map Prod.fst ++ dynOfSegs rs := by
  intro rs
  induction rs with
  | nil =>
    intro ps acc m hm hnd
    cases ps with
    | nil =>
      simp only [matchSegs, Option.some.injEq] at hm
      subst hm
      simp [dynOfSegs]
    | cons p pt => simp [matchSegs] at hm
  | cons r rt ih =>
    intro ps acc m hm hnd
    cases ps with
    | nil => simp [matchSegs] at hm
    | cons p pt =>
      simp only [matchSegs] at hm
      by_cases hdyn : strStartsWith r ":" = true
      · rw [if_pos hdyn] at hm
        have hdn : dynOfSegs (r :: rt) = r.drop 1 :: dynOfSegs rt := by
          simp [dynOfSegs, hdyn]
        rw [hdn] at hnd ⊢
        have hnotin : r.drop 1 ∉ acc.map Prod.fst := by
          rcases List.nodup_append.mp hnd with ⟨_, _, hdisj⟩
          intro hmem
          exact hdisj hmem (List.mem_cons_self _ _)
        rw [objSet_of_not_mem acc (r.drop 1) p hnotin] at hm
        have hnd' : ((acc ++ [(r.drop 1, p)]).map Prod.fst ++ dynOfSegs rt).Nodup := by
          simpa [List.append_assoc] using hnd
        have := ih pt (acc ++ [(r.drop 1, p)]) m hm hnd'
        simpa [List.append_assoc] using this
      · rw [if_neg hdyn] at hm
        have hdynF : strStartsWith r ":" = false := by simpa using hdyn
        have hdn : dynOfSegs (r :: rt) = dynOfSegs rt := by
          simp [dynOfSegs, hdynF]
        rw [hdn] at hnd ⊢
        by_cases heq : r = p
        · rw [if_pos heq] at hm
          exact ih pt acc m hm hnd
        · rw [if_neg heq] at hm
          simp at hm

/-- C9 counterexample: a pattern with two dynamic segments sharing one name
matches a structurally matching path with a single binding (the later
segment's value overwrites the earlier one in the params object), so a
pattern with k dynamic segments does not always yield exactly k bindings. -/
theorem c9_counterexample_duplicate_param_names :
    matchRoute "/a/1/2" "/a/:x/:x" = some [("x", "2")] ∧
    (dynNames "/a/:x/:x").length = 2 ∧
    ¬ ([("x", "2")] : List (String × String)).length = 2 := by decide

theorem matchRoute_keys (path pattern : String) (m : List (String × String))
    (hm : matchRoute path pattern = some m) (hnd : (dynNames pattern).Nodup) :
    m.map Prod.fst = dynNames pattern := by
  rw [matchRoute] at hm
  by_cases hemp : dropTrailingSlashes (stripQuery path) = "" ∧ dropTrailingSlashes pattern = ""
  · rw [if_pos hemp] at hm
    obtain ⟨h1, h2⟩ := hemp
    have hdn : dynNames pattern = [] := by
      rw [dynNames, h2]
      decide
    simp only [Option.some.injEq] at hm
    subst hm
    simp [hdn]
  · rw [if_neg hemp] at hm
    by_cases hlen :
        ((splitOnCharStr '/' (dropTrailingSlashes (stripQuery path))).filter (fun s => s ≠ "")).length =
        ((splitOnCharStr '/' (dropTrailingSlashes pattern)).filter (fun s => s ≠ "")).length
    · rw [if_neg (not_not_intro hlen)] at hm
      have := matchSegs_keys _ _ [] m hm (by simpa [dynNames] using hnd)
      simpa [dynNames] using this
    · rw [if_pos hlen] at hm
      simp at hm

/-- C9 (amended): `matchRoute` coincides with the reference algorithm of the
specification on every input; and for every pattern whose dynamic-segment
names are pairwise distinct, a successful match binds exactly those names in
order — in particular exactly k bindings for k distinctly named dynamic
segments, and the empty map (not no-match) for an all-static structural
match. Patterns with duplicate parameter names collapse to one binding per
name, which is the only correction to the claim. -/
theorem c9_match_equals_reference
    (path pattern : String) :
    matchRoute path pattern = matchSpec path pattern ∧
    (∀ m, matchRoute path pattern = some m → (dynNames pattern).Nodup →
      m.map Prod.fst = dynNames pattern ∧ m.length = (dynNames pattern).length) ∧
    (∀ m, matchRoute path pattern = some m → dynNames pattern = [] → m = []) := by
  refine ⟨matchRoute_eq_matchSpec path pattern, ?_, ?_⟩
  · intro m hm hnd
    have hkeys := matchRoute_keys path pattern m hm hnd
    refine ⟨hkeys, ?_⟩
    have := congrArg List.length hkeys
    simpa using this
  · intro m hm hdn
    have hnd : (dynNames pattern).Nodup := by rw [hdn]; exact List.nodup_nil
    have := matchRoute_keys path pattern m hm hnd
    rw [hdn] at this
    exact List.map_eq_nil_iff.mp this

/-- C9 witness: the amended theorem applied to a concrete two-parameter
pattern with distinct names yields exactly its two bindings. -/
theorem c9_witness :
    matchRoute "/users/123/books/9" "/users/:uid/books/:bid" =
      some [("uid", "123"), ("bid", "9")] ∧
    ([("uid", "123"), ("bid", "9")] : List (String × String)).map Prod.fst =
      dynNames "/users/:uid/books/:bid" ∧
    ([("uid", "123"), ("bid", "9")] : List (String × String)).length =
      (dynNames "/users/:uid/books/:bid").length := by
  refine ⟨by decide, ?_⟩
  exact (c9_match_equals_reference "/users/123/books/9" "/users/:uid/books/:bid").2.1
    [("uid", "123"), ("bid", "9")] (by decide) (by decide)

/-- C4: the validation engine attempts all four facets regardless of earlier
facet failures, and when at least one facet fails it throws a single
aggregated failure equal to the concatenation of the four facets'
independently computed failure entries, in facet order — every failing facet
with all of its messages, never only the first. -/
theorem c4_validation_aggregates_all_facets
    (req : Request) (params : List (String × String)) (v : Option ValidationSchema)
    (h : allErrs req params v ≠ []) :
    (validateRequest req params v).1 = .error (allErrs req params v) ∧
    allErrs req params v =
      paramsErrs params v ++ queryErrs req v ++ headersErrs req v ++ bodyErrs req v :=
  ⟨validateRequest_error_eq req params v h, rfl⟩

/-- C4 witness: an invalid path param, an invalid query value, and a missing
required body field together yield exactly three facet entries. -/
theorem c4_witness :
    allErrs c4Req c4Params (some c4Validation) ≠ [] ∧
    (validateRequest c4Req c4Params (some c4Validation)).1 =
      .error [⟨"params", ["id too short"]⟩, ⟨"query", ["page must be positive"]⟩,
              ⟨"body", ["age is required"]⟩] ∧
    (allErrs c4Req c4Params (some c4Validation)).length = 3 := by
  have h := c4_validation_aggregates_all_facets c4Req c4Params (some c4Validation) (by decide)
  refine ⟨by decide, ?_, by decide⟩
  rw [h.1, show allErrs c4Req c4Params (some c4Validation) =
    [⟨"params", ["id too short"]⟩, ⟨"query", ["page must be positive"]⟩,
     ⟨"body", ["age is required"]⟩] from by decide]

/-- C5: the validation engine reads the request body only through a clone, so
the request state it returns is the unchanged original: its body stream is
not consumed, and a later stage reading the body observes exactly what it
would have observed before validation. -/
theorem c5_validation_reads_body_via_clone
    (req : Request) (params : List (String × String)) (v : Option ValidationSchema) :
    (validateRequest req params v).2 = req ∧
    ((v.bind (fun s => s.body)).isSome = true → req.bodyUsed = false →
      ((validateRequest req params v).2.bodyUsed = false ∧
       Request.jsonConsume ((validateRequest req params v).2) = Request.jsonConsume req)) := by
  refine ⟨validateRequest_preserves_request req params v, ?_⟩
  intro _ hb
  rw [validateRequest_preserves_request req params v]
  exact ⟨hb, rfl⟩

/-- C5 witness: after validating with a body validator, the original request
can still be read. -/
theorem c5_witness :
    ((some c5Validation).bind (fun s => s.body)).isSome = true ∧
    c5Req.bodyUsed = false ∧
    (validateRequest c5Req [] (some c5Validation)).2.bodyUsed = false ∧
    Request.jsonConsume ((validateRequest c5Req [] (some c5Validation)).2) =
      Request.jsonConsume c5Req := by
  have h := (c5_validation_reads_body_via_clone c5Req [] (some c5Validation)).2 rfl rfl
  exact ⟨rfl, rfl, h.1, h.2⟩

/-- C6: for every facet with a supplied validator, any thrown value (an
`Error` or a non-error value alike) is recorded as a failure of that facet in
the aggregated validation failure, with the message extracted best-effort
(`err instanceof Error ? err.message : String(err)`); no thrown value leaves
the facet silently treated as passed. Stated for params, query, headers, and
both body decode paths. -/
theorem c6_thrown_validator_values_recorded :
    (∀ (req : Request) (p : List (String × String)) (v : Option ValidationSchema)
       (f : RouterValidator) (t : Thrown),
       v.bind (fun s => s.params) = some f → f (.record p) = .error t →
       VErrItem.mk "params" [thrownToMessage t] ∈ errsOf req p v) ∧
    (∀ (req : Request) (p : List (String × String)) (v : Option ValidationSchema)
       (f : RouterValidator) (t : Thrown),
       v.bind (fun s => s.query) = some f →
       f (.record (objFromEntries req.searchParams)) = .error t →
       VErrItem.mk "query" [thrownToMessage t] ∈ errsOf req p v) ∧
    (∀ (req : Request) (p : List (String × String)) (v : Option ValidationSchema)
       (f : RouterValidator) (t : Thrown),
       v.bind (fun s => s.headers) = some f →
       f (.record (objFromEntries req.headers)) = .error t →
       VErrItem.mk "headers" [thrownToMessage t] ∈ errsOf req p v) ∧
    (∀ (req : Request) (p : List (String × String)) (v : Option ValidationSchema)
       (f : RouterValidator) (t : Thrown) (j : Json) (c : Request),
       v.bind (fun s => s.body) = some f →
       strContainsSub ((objGet req.headers "content-type").getD "") "application/json" = true →
       (Request.clone req).jsonConsume = .ok (j, c) →
       f (.json j) = .error t →
       VErrItem.mk "body" [thrownToMessage t] ∈ errsOf req p v) ∧
    (∀ (req : Request) (p : List (String × String)) (v : Option ValidationSchema)
       (f : RouterValidator) (t : Thrown) (s : String) (c : Request),
       v.bind (fun s => s.body) = some f →
       strContainsSub ((objGet req.headers "content-type").getD "") "application/json" = false →
       (Request.clone req).textConsume = .ok (s, c) →
       f (.str s) = .error t →
       VErrItem.mk "body" [thrownToMessage t] ∈ errsOf req p v) := by
  refine ⟨?_, ?_, ?_, ?_, ?_⟩
  · intro req p v f t hsome hthrow
    have hpe : paramsErrs p v = [⟨"params", [thrownToMessage t]⟩] := by
      simp [paramsErrs, hsome, hthrow]
    have hne : allErrs req p v ≠ [] := by simp [allErrs, hpe]
    rw [errsOf, validateRequest_error_eq req p v hne]
    simp [allErrs, hpe]
  · intro req p v f t hsome hthrow
    have hqe : queryErrs req v = [⟨"query", [thrownToMessage t]⟩] := by
      simp [queryErrs, hsome, hthrow]
    have hne : allErrs req p v ≠ [] := by simp [allErrs, hqe]
    rw [errsOf, validateRequest_error_eq req p v hne]
    simp [allErrs, hqe]
  · intro req p v f t hsome hthrow
    have hhe : headersErrs req v = [⟨"headers", [thrownToMessage t]⟩] := by
      simp [headersErrs, hsome, hthrow]
    have hne : allErrs req p v ≠ [] := by simp [allErrs, hhe]
    rw [errsOf, validateRequest_error_eq req p v hne]
    simp [allErrs, hhe]
  · intro req p v f t j c hsome hct hjc hthrow
    have hbe : bodyErrs req v = [⟨"body", [thrownToMessage t]⟩] := by
      simp [bodyErrs, hsome, hct, hjc, hthrow]
    have hne : allErrs req p v ≠ [] := by simp [allErrs, hbe]
    rw [errsOf, validateRequest_error_eq req p v hne]
    simp [allErrs, hbe]
  · intro req p v f t s c hsome hct htc hthrow
    have hbe : bodyErrs req v = [⟨"body", [thrownToMessage t]⟩] := by
      simp [bodyErrs, hsome, hct, htc, hthrow]
    have hne : allErrs req p v ≠ [] := by simp [allErrs, hbe]
    rw [errsOf, validateRequest_error_eq req p v hne]
    simp [allErrs, hbe]

/-- C6 witness: a validator throwing a non-error value still produces a
recorded facet failure with the best-effort message. -/
theorem c6_witness :
    VErrItem.mk "params" ["42"] ∈ errsOf c6Req [] (some c6Validation) := by
  have h := c6_thrown_validator_values_recorded.1 c6Req [] (some c6Validation)
    (fun _ => .error (.other "42")) (.other "42") rfl rfl
  simpa using h

theorem runMiddlewaresT_none (tagger : Nat → Event) (req : Request) :
    ∀ (mws : List Middleware), (∀ mw ∈ mws, mw.run req = none) →
    runMiddlewaresT tagger req mws = (none, mws.map (fun mw => tagger mw.tag)) := by
  intro mws
  induction mws with
  | nil => intro _; rfl
  | cons mw rest ih =>
    intro h
    have hmw := h mw (List.mem_cons_self _ _)
    simp only [runMiddlewaresT, hmw]
    rw [ih (fun m hm => h m (List.mem_cons_of_mem _ hm))]
    simp

theorem runMiddlewaresT_first_some (tagger : Nat → Event) (req : Request) :
    ∀ (pre : List Middleware) (mw : Middleware) (post : List Middleware) (resp : Response),
    (∀ m ∈ pre, m.run req = none) → mw.run req = some resp →
    runMiddlewaresT tagger req (pre ++ mw :: post) =
      (some resp, pre.map (fun m => tagger m.tag) ++ [tagger mw.tag]) := by
  intro pre
  induction pre with
  | nil =>
    intro mw post resp _ hmw
    simp [runMiddlewaresT, hmw]
  | cons m0 rest ih =>
    intro mw post resp hpre hmw
    have hm0 := hpre m0 (List.mem_cons_self _ _)
    rw [List.cons_append]
    simp only [runMiddlewaresT, hm0]
    rw [ih mw post resp (fun m hm => hpre m (List.mem_cons_of_mem _ hm)) hmw]
    simp

theorem runMiddlewaresT_append (tagger : Nat → Event) (req : Request) :
    ∀ (a b : List Middleware),
    runMiddlewaresT tagger req (a ++ b) =
      (match runMiddlewaresT tagger req a with
       | (some r, e) => (some r, e)
       | (none, e) =>
         ((runMiddlewaresT tagger req b).1, e ++ (runMiddlewaresT tagger req b).2)) := by
  intro a b
  induction a with
  | nil => simp [runMiddlewaresT]
  | cons mw rest ih =>
    rw [List.cons_append]
    cases hmw : mw.run req with
    | some r => simp [runMiddlewaresT, hmw]
    | none =>
      simp only [runMiddlewaresT, hmw, ih]
      rcases hr : runMiddlewaresT tagger req rest with ⟨res, evs⟩
      cases res <;> simp [hr]

theorem runPathMiddlewaresT_eq_chain (req : Request) (path : String) :
    ∀ (l : List (String × List Middleware)),
    runPathMiddlewaresT req path l = runMiddlewaresT Event.mwPath req (pathChain l path) := by
  intro l
  induction l with
  | nil => rfl
  | cons pr rest ih =>
    rcases pr with ⟨p, mws⟩
    cases hsw : strStartsWith path p with
    | false => simp [runPathMiddlewaresT, pathChain, hsw, ih, List.filter_cons]
    | true =>
      simp only [runPathMiddlewaresT, pathChain, hsw, if_true, List.filter_cons,
        List.foldr_cons]
      rw [runMiddlewaresT_append]
      rcases hrun : runMiddlewaresT Event.mwPath req mws with ⟨res, evs⟩
      cases res with
      | some r => simp [hrun]
      | none =>
        simp only [hrun]
        rw [ih]
        rfl

theorem runPluginOnRequest_events (req : Request) :
    ∀ (ps : List Plugin), ∀ e ∈ (runPluginOnRequest ps req).2, ∃ n, e = Event.hookRequest n := by
  intro ps
  induction ps with
  | nil => intro e he; simp [runPluginOnRequest] at he
  | cons p rest ih =>
    intro e he
    cases hp : p.onRequest with
    | none =>
      simp only [runPluginOnRequest, hp] at he
      exact ih e he
    | some hook =>
      cases hr : hook req with
      | some r =>
        simp only [runPluginOnRequest, hp, hr] at he
        simp at he
        exact ⟨p.name, he⟩
      | none =>
        simp only [runPluginOnRequest, hp, hr] at he
        simp at he
        rcases he with he | he
        · exact ⟨p.name, he⟩
        · exact ih e he

theorem runPluginOnResponse_events (req : Request) :
    ∀ (ps : List Plugin) (res : Response),
    (runPluginOnResponse ps req res).2 =
      (ps.filter (fun p => p.onResponse.isSome)).map (fun p => Event.hookResponse p.name) := by
  intro ps
  induction ps with
  | nil => intro res; rfl
  | cons p rest ih =>
    intro res
    cases hp : p.onResponse with
    | none => simp [runPluginOnResponse, hp, ih, List.filter_cons]
    | some hook => simp [runPluginOnResponse, hp, ih, List.filter_cons]

theorem handle_through_onResponse (rt : Router) (req : Request) :
    ∃ r0 pre, Router.handleT rt req =
      (some (runPluginOnResponse rt.plugins req r0).1,
       pre ++ (runPluginOnResponse rt.plugins req r0).2) := by
  unfold Router.handleT
  rcases h0 : runPluginOnRequest rt.plugins req with ⟨r0, e0⟩
  cases r0 with
  | some r => exact ⟨r, e0, rfl⟩
  | none =>
    dsimp only
    rcases h1 : runMiddlewaresT Event.mwGlobal req rt.globalMws with ⟨g, e1⟩
    cases g with
    | some r => exact ⟨r, e0 ++ e1, rfl⟩
    | none =>
      dsimp only
      rcases h2 : runPathMiddlewaresT req req.path rt.pathMws with ⟨pm, e2⟩
      cases pm with
      | some r => exact ⟨r, e0 ++ e1 ++ e2, rfl⟩
      | none =>
        dsimp only
        rcases h3 : matchFirst req.method req.path rt.routes with _ | ⟨route, params⟩
        · exact ⟨notFoundRes, e0 ++ e1 ++ e2 ++ [Event.routeMatch], rfl⟩
        · dsimp only
          rcases h4 : runMiddlewaresT Event.mwRoute req (route.middleware.getD []) with ⟨rm, e3⟩
          cases rm with
          | some r => exact ⟨r, e0 ++ e1 ++ e2 ++ [Event.routeMatch] ++ e3, rfl⟩
          | none =>
            dsimp only
            rcases h5 : Router.runAuth rt req params route with ⟨res, e4⟩
            cases res with
            | ok r =>
              exact ⟨setContentType r, e0 ++ e1 ++ e2 ++ [Event.routeMatch] ++ e3 ++ e4, rfl⟩
            | error e =>
              exact ⟨(Router.handleErrorT rt e req).1,
                e0 ++ e1 ++ e2 ++ [Event.routeMatch] ++ e3 ++ e4 ++
                  (Router.handleErrorT rt e req).2, rfl⟩

/-- C8: every dispatch outcome is the result of threading some stage response
through `runPluginResponseHook`; that hook visits the plugin list from left
to right, so running it on a concatenation feeds the first part's final
(possibly replaced) response into the second part — a replacement by one
plugin never stops later plugins — and its event trace names exactly the
plugins that implement `onResponse`, in registration order, on every
outcome. -/
theorem c8_on_response_runs_every_plugin :
    (∀ (rt : Router) (req : Request), ∃ r0 pre, Router.handleT rt req =
      (some (runPluginOnResponse rt.plugins req r0).1,
       pre ++ (runPluginOnResponse rt.plugins req r0).2)) ∧
    (∀ (ps qs : List Plugin) (req : Request) (r : Response),
      runPluginOnResponse (ps ++ qs) req r =
        ((runPluginOnResponse qs req (runPluginOnResponse ps req r).1).1,
         (runPluginOnResponse ps req r).2 ++
           (runPluginOnResponse qs req (runPluginOnResponse ps req r).1).2)) ∧
    (∀ (ps : List Plugin) (req : Request) (res : Response),
      (runPluginOnResponse ps req res).2 =
        (ps.filter (fun p => p.onResponse.isSome)).map (fun p => Event.hookResponse p.name)) := by
  refine ⟨handle_through_onResponse, ?_, fun ps req res => runPluginOnResponse_events req ps res⟩
  intro ps qs req r
  induction ps generalizing r with
  | nil => simp [runPluginOnResponse]
  | cons p pt ih =>
    rw [List.cons_append]
    cases hp : p.onResponse with
    | none => simp [runPluginOnResponse, hp, ih]
    | some hook => simp [runPluginOnResponse, hp, ih]

/-- C10: `handle` never returns the null unmatched signal its signature
permits — every dispatch produces a response — and when the pipeline reaches
route matching and no registered route matches the request's method and
path, the result is the 404 `{"error":"Not Found"}` response threaded
through every plugin's `onResponse` hook. -/
theorem c10_handle_never_null :
    (∀ (rt : Router) (req : Request), (Router.handleT rt req).1.isSome = true) ∧
    (∀ (rt : Router) (req : Request),
      (runPluginOnRequest rt.plugins req).1 = none →
      (runMiddlewaresT Event.mwGlobal req rt.globalMws).1 = none →
      (runPathMiddlewaresT req req.path rt.pathMws).1 = none →
      matchFirst req.method req.path rt.routes = none →
      (Router.handleT rt req).1 = some (runPluginOnResponse rt.plugins req notFoundRes).1) ∧
    notFoundRes.status = 404 ∧
    notFoundRes.body = "\x7b\"error\":\"Not Found\"\x7d" := by
  refine ⟨?_, ?_, rfl, rfl⟩
  · intro rt req
    obtain ⟨r0, pre, h⟩ := handle_through_onResponse rt req
    rw [h]
    rfl
  · intro rt req h0 h1 h2 h3
    unfold Router.handleT
    rcases e0h : runPluginOnRequest rt.plugins req with ⟨r0, e0⟩
    rw [e0h] at h0
    cases r0 with
    | some r => simp at h0
    | none =>
      dsimp only
      rcases e1h : runMiddlewaresT Event.mwGlobal req rt.globalMws with ⟨g, e1⟩
      rw [e1h] at h1
      cases g with
      | some r => simp at h1
      | none =>
        dsimp only
        rcases e2h : runPathMiddlewaresT req req.path rt.pathMws with ⟨pm, e2⟩
        rw [e2h] at h2
        cases pm with
        | some r => simp at h2
        | none =>
          dsimp only
          rw [h3]

/-- C10 witness: dispatching an unmatched request on the empty router yields
the 404 response, not null. -/
theorem c10_witness :
    (Router.handleT c10Router c10Req).1 = some notFoundRes := by
  have h := c10_handle_never_null.2.1 c10Router c10Req rfl rfl rfl rfl
  simpa using h

/-- C7: the first middleware in any tier that returns a terminal response
ends the pipeline immediately. For each of the three tiers (global,
path-scoped, route-level) the full event trace of the dispatch is exactly:
the plugin `onRequest` events, the events of every earlier (completed) tier,
the events of the middleware up to and including the first terminal one, and
the plugin `onResponse` events — the terminal response, threaded through the
`onResponse` hooks, is the dispatch result. In particular, for a global-tier
short circuit the trace contains no path or route middleware event, no route
matching, no auth verification, no validation and no handler event. -/
theorem c7_first_terminal_short_circuits :
    (∀ (rt : Router) (req : Request) (pre : List Middleware) (mw : Middleware)
       (post : List Middleware) (resp : Response),
      (runPluginOnRequest rt.plugins req).1 = none →
      rt.globalMws = pre ++ mw :: post →
      (∀ m ∈ pre, m.run req = none) → mw.run req = some resp →
      Router.handleT rt req =
        (some (runPluginOnResponse rt.plugins req resp).1,
         (runPluginOnRequest rt.plugins req).2 ++
           (pre.map (fun m => Event.mwGlobal m.tag) ++ [Event.mwGlobal mw.tag]) ++
           (runPluginOnResponse rt.plugins req resp).2) ∧
      (∀ e ∈ (Router.handleT rt req).2,
        e ≠ Event.routeMatch ∧ e ≠ Event.authVerify ∧ e ≠ Event.validateRun ∧
        e ≠ Event.handlerRun ∧ (∀ t, e ≠ Event.mwPath t) ∧ (∀ t, e ≠ Event.mwRoute t))) ∧
    (∀ (rt : Router) (req : Request) (pre : List Middleware) (mw : Middleware)
       (post : List Middleware) (resp : Response),
      (runPluginOnRequest rt.plugins req).1 = none →
      (∀ m ∈ rt.globalMws, m.run req = none) →
      pathChain rt.pathMws req.path = pre ++ mw :: post →
      (∀ m ∈ pre, m.run req = none) → mw.run req = some resp →
      Router.handleT rt req =
        (some (runPluginOnResponse rt.plugins req resp).1,
         (runPluginOnRequest rt.plugins req).2 ++
           rt.globalMws.map (fun m => Event.mwGlobal m.tag) ++
           (pre.map (fun m => Event.mwPath m.tag) ++ [Event.mwPath mw.tag]) ++
           (runPluginOnResponse rt.plugins req resp).2)) ∧
    (∀ (rt : Router) (req : Request) (route : Route) (params : List (String × String))
       (pre : List Middleware) (mw : Middleware) (post : List Middleware) (resp : Response),
      (runPluginOnRequest rt.plugins req).1 = none →
      (∀ m ∈ rt.globalMws, m.run req = none) →
      (∀ m ∈ pathChain rt.pathMws req.path, m.run req = none) →
      matchFirst req.method req.path rt.routes = some (route, params) →
      route.middleware.getD [] = pre ++ mw :: post →
      (∀ m ∈ pre, m.run req = none) → mw.run req = some resp →
      Router.handleT rt req =
        (some (runPluginOnResponse rt.plugins req resp).1,
         (runPluginOnRequest rt.plugins req).2 ++
           rt.globalMws.map (fun m => Event.mwGlobal m.tag) ++
           (pathChain rt.pathMws req.path).map (fun m => Event.mwPath m.tag) ++
           [Event.routeMatch] ++
           (pre.map (fun m => Event.mwRoute m.tag) ++ [Event.mwRoute mw.tag]) ++
           (runPluginOnResponse rt.plugins req resp).2)) := by
  refine ⟨?_, ?_, ?_⟩
  · intro rt req pre mw post resp h0 hg hpre hmw
    have hmain : Router.handleT rt req =
        (some (runPluginOnResponse rt.plugins req resp).1,
         (runPluginOnRequest rt.plugins req).2 ++
           (pre.map (fun m => Event.mwGlobal m.tag) ++ [Event.mwGlobal mw.tag]) ++
           (runPluginOnResponse rt.plugins req resp).2) := by
      unfold Router.handleT
      rcases e0h : runPluginOnRequest rt.plugins req with ⟨r0, e0⟩
      rw [e0h] at h0
      cases r0 with
      | some r => simp at h0
      | none =>
        dsimp only
        rw [hg, runMiddlewaresT_first_some Event.mwGlobal req pre mw post resp hpre hmw]
    refine ⟨hmain, ?_⟩
    intro e he
    rw [hmain] at he
    simp only [List.mem_append, List.mem_map, List.mem_singleton] at he
    rcases he with ((he | (⟨m, _, rfl⟩ | rfl)) | he)
    · obtain ⟨n, rfl⟩ := runPluginOnRequest_events req rt.plugins e he
      refine ⟨by simp, by simp, by simp, by simp, by simp, by simp⟩
    · refine ⟨by simp, by simp, by simp, by simp, by simp, by simp⟩
    · refine ⟨by simp, by simp, by simp, by simp, by simp, by simp⟩
    · rw [runPluginOnResponse_events] at he
      obtain ⟨p, _, rfl⟩ := List.mem_map.mp he
      refine ⟨by simp, by simp, by simp, by simp, by simp, by simp⟩
  · intro rt req pre mw post resp h0 hglob hchain hpre hmw
    unfold Router.handleT
    rcases e0h : runPluginOnRequest rt.plugins req with ⟨r0, e0⟩
    rw [e0h] at h0
    cases r0 with
    | some r => simp at h0
    | none =>
      dsimp only
      rw [runMiddlewaresT_none Event.mwGlobal req rt.globalMws hglob]
      dsimp only
      rw [runPathMiddlewaresT_eq_chain, hchain,
        runMiddlewaresT_first_some Event.mwPath req pre mw post resp hpre hmw]
  · intro rt req route params pre mw post resp h0 hglob hpath hmatch hroutemw hpre hmw
    unfold Router.handleT
    rcases e0h : runPluginOnRequest rt.plugins req with ⟨r0, e0⟩
    rw [e0h] at h0
    cases r0 with
    | some r => simp at h0
    | none =>
      dsimp only
      rw [runMiddlewaresT_none Event.mwGlobal req rt.globalMws hglob]
      dsimp only
      rw [runPathMiddlewaresT_eq_chain,
        runMiddlewaresT_none Event.mwPath req (pathChain rt.pathMws req.path) hpath]
      dsimp only
      rw [hmatch]
      dsimp only
      rw [hroutemw, runMiddlewaresT_first_some Event.mwRoute req pre mw post resp hpre hmw]

/-- C7 witness: the global middleware's terminal response is the dispatch
result and the only event is that middleware's invocation. -/
theorem c7_witness :
    Router.handleT c7Router c7Req = (some c7Resp, [Event.mwGlobal 5]) := by
  have h := (c7_first_terminal_short_circuits.1 c7Router c7Req [] c7Mw [] c7Resp rfl rfl
    (by intro m hm; cases hm) rfl).1
  simpa [runPluginOnRequest, runPluginOnResponse] using h

end BnkRouter
